import Mathlib

/-!
Verification of the GraphQL introspection MCP server
(`src/graphql-service.ts`): a shallow embedding of the
fetch/cache/format pipeline together with theorems about the
behaviours documented in the specification.

Conventions of the embedding:
* JavaScript optional/nullable fields become `Option`; the JS
  truthiness test on an optional string (`undefined`, `null` and `""`
  are falsy) is `strTruthy`.
* The JS `Map` used as the cache becomes an association list with
  `Map.set` semantics (replace in place, else append).
* Time is an explicit `Nat` parameter (milliseconds), replacing
  `Date.now()`.
* The network is an oracle value (`NetworkBehavior`) supplied to the
  fetch function, describing what `fetch` would do: either throw a
  transport-level fault or produce an HTTP response.
* Thrown `Error`s become `Except` errors; the distinct throw sites of
  `fetchIntrospection` become the constructors of `FetchError`, and
  the `catch`-and-rewrap block becomes `FetchError.message`.
-/

namespace GraphQLInspector

/-- JS truthiness of an optional string: `undefined`/`null`/`""` are falsy. -/
def strTruthy : Option String → Bool
  | none => false
  | some s => !(s == "")

/-- Substring test on character lists, modelling JS `String.prototype.includes`. -/
def includesAux (needle : List Char) : List Char → Bool
  | [] => needle.isEmpty
  | c :: rest => needle.isPrefixOf (c :: rest) || includesAux needle rest

/-- `strIncludes hay needle` models JS `hay.includes(needle)`. -/
def strIncludes (hay needle : String) : Bool :=
  includesAux needle.data hay.data

/-- `strStartsWith s pre` models JS `s.startsWith(pre)`. -/
def strStartsWith (s pre : String) : Bool :=
  pre.data.isPrefixOf s.data

/-- `interface AuthOptions` (src/graphql-service.ts lines 4-8). -/
structure AuthOptions where
  username : Option String
  password : Option String
  bearer_token : Option String
deriving Repr, DecidableEq

/-- The auth identity `auth.username || auth.bearer_token || 'no-auth'`
used by `getCacheKey` (line 44). -/
def authIdentity (auth : AuthOptions) : String :=
  if strTruthy auth.username then auth.username.getD ""
  else if strTruthy auth.bearer_token then auth.bearer_token.getD ""
  else "no-auth"

/-- `getCacheKey` (lines 43-46): `` `${endpoint}:${authKey}` ``. -/
def getCacheKey (endpoint : String) (auth : AuthOptions) : String :=
  endpoint ++ ":" ++ authIdentity auth

/-- `CACHE_DURATION = 5 * 60 * 1000` (line 39), in milliseconds. -/
def CACHE_DURATION : Nat := 5 * 60 * 1000

/-- `DEFAULT_ENDPOINT = process.env.BASE_URL || 'http://localhost:5555/graphql'`
(lines 40-41); the environment is a partial map from variable names to values. -/
def DEFAULT_ENDPOINT (env : String → Option String) : String :=
  match env "BASE_URL" with
  | some s => if s == "" then "http://localhost:5555/graphql" else s
  | none => "http://localhost:5555/graphql"

/-- The configuration a `GraphQLIntrospectionService` instance captures at
construction time (lines 38-41): the cache duration is a fixed constant and
the default endpoint is read from the environment. -/
structure ServiceConfig where
  cacheDuration : Nat
  defaultEndpoint : String
deriving Repr, DecidableEq

/-- Constructing the service (class field initializers, lines 38-41). -/
def mkService (env : String → Option String) : ServiceConfig :=
  { cacheDuration := CACHE_DURATION, defaultEndpoint := DEFAULT_ENDPOINT env }

/-- Base64 alphabet used by `Buffer.toString('base64')`. -/
def base64Chars : List Char :=
  "ABCDEFGHIJKLMNOPQRSTUVWXYZabcdefghijklmnopqrstuvwxyz0123456789+/".data

/-- Index into the base64 alphabet. -/
def base64Char (n : Nat) : Char := base64Chars.getD n 'A'

/-- Encode a byte list (values < 256) into base64 characters with padding. -/
def base64Chunks : List Nat → List Char
  | [] => []
  | [b1] => [base64Char (b1 / 4), base64Char (b1 % 4 * 16), '=', '=']
  | [b1, b2] =>
    [base64Char (b1 / 4), base64Char (b1 % 4 * 16 + b2 / 16),
     base64Char (b2 % 16 * 4), '=']
  | b1 :: b2 :: b3 :: rest =>
    base64Char (b1 / 4) :: base64Char (b1 % 4 * 16 + b2 / 16) ::
    base64Char (b2 % 16 * 4 + b3 / 64) :: base64Char (b3 % 64) ::
    base64Chunks rest

/-- `Buffer.from(s).toString('base64')`: base64 over the UTF-8 bytes of `s`. -/
def base64Encode (s : String) : String :=
  String.mk (base64Chunks (s.toUTF8.toList.map (fun b => b.toNat)))

/-- Request-header construction of `fetchIntrospection` (lines 61-71). -/
def buildHeaders (auth : AuthOptions) : List (String × String) :=
  let base := [("Content-Type", "application/json")]
  if strTruthy auth.bearer_token then
    base ++ [("Authorization", "Bearer " ++ auth.bearer_token.getD "")]
  else if strTruthy auth.username && strTruthy auth.password then
    base ++ [("Authorization",
      "Basic " ++ base64Encode (auth.username.getD "" ++ ":" ++ auth.password.getD ""))]
  else base

/-- Look a header up by exact name. -/
def headerLookup (headers : List (String × String)) (name : String) : Option String :=
  (headers.find? (fun p => p.1 == name)).map Prod.snd

/-- A GraphQL type reference as traversed by `formatType`: a `kind`, an
optional `name` and `description`, and an optional inner `ofType`. -/
inductive TypeRef where
  | mk (kind : String) (name : Option String) (description : Option String)
      (ofType : Option TypeRef)
deriving Repr

/-- The `kind` field of a type reference. -/
def TypeRef.kind : TypeRef → String
  | .mk k _ _ _ => k

/-- The `name` field of a type reference. -/
def TypeRef.name : TypeRef → Option String
  | .mk _ n _ _ => n

/-- The `description` field of a type reference. -/
def TypeRef.description : TypeRef → Option String
  | .mk _ _ d _ => d

/-- The `ofType` field of a type reference. -/
def TypeRef.ofType : TypeRef → Option TypeRef
  | .mk _ _ _ t => t

/-- An enum value as found in introspection data. -/
structure EnumValueDef where
  name : String
  description : Option String
  isDeprecated : Bool
  deprecationReason : Option String
deriving Repr

/-- An input field (or argument) as found in introspection data. -/
structure InputFieldDef where
  name : String
  description : Option String
  type : Option TypeRef
  defaultValue : Option String
deriving Repr

/-- A field of an object/interface type as found in introspection data. -/
structure FieldDef where
  name : String
  description : Option String
  args : Option (List InputFieldDef)
  type : Option TypeRef
  isDeprecated : Bool
  deprecationReason : Option String
deriving Repr

/-- A full type definition from `__schema.types`. -/
structure FullType where
  kind : String
  name : String
  description : Option String
  fields : Option (List FieldDef)
  enumValues : Option (List EnumValueDef)
  inputFields : Option (List InputFieldDef)
  interfaces : Option (List TypeRef)
  possibleTypes : Option (List TypeRef)
deriving Repr

/-- A root-operation type reference (`queryType` etc.): just a name. -/
structure RootTypeRef where
  name : String
deriving Repr, DecidableEq

/-- The `__schema` object of an introspection document. -/
structure SchemaData where
  queryType : Option RootTypeRef
  mutationType : Option RootTypeRef
  subscriptionType : Option RootTypeRef
  types : List FullType
deriving Repr

/-- The raw introspection document (`result.data`): wraps `__schema`. -/
structure IntrospectionData where
  schema : SchemaData
deriving Repr

/-- A cache entry (`interface CacheEntry`, lines 32-35). -/
structure CacheEntry where
  data : IntrospectionData
  timestamp : Nat
deriving Repr

/-- The in-memory cache: an association list modelling the JS `Map`. -/
abbrev Cache := List (String × CacheEntry)

/-- `Map.get`: first entry with the given key. -/
def cacheGet (c : Cache) (k : String) : Option CacheEntry :=
  (c.find? (fun p => p.1 == k)).map Prod.snd

/-- `Map.set`: replace the entry with the given key in place, else append. -/
def cacheSet : Cache → String → CacheEntry → Cache
  | [], k, e => [(k, e)]
  | p :: rest, k, e =>
    if p.1 == k then (k, e) :: rest else p :: cacheSet rest k e

/-- `isValidCache` (lines 48-50): `Date.now() - entry.timestamp < CACHE_DURATION`. -/
def isValidCache (now : Nat) (entry : CacheEntry) : Bool :=
  now - entry.timestamp < CACHE_DURATION

/-- The body of a 2xx introspection response as consumed by
`fetchIntrospection`: an optional `errors` array (each element represented by
its JSON serialization; `none` models an absent or `null` field) and the
`data` payload. -/
structure ResponseBody where
  errors : Option (List String)
  data : IntrospectionData
deriving Repr

/-- What the network does for one fetch attempt: either `fetch` itself throws
(`fault`, with the thrown `Error`'s message, or `none` for a non-`Error`
throw), or an HTTP response arrives with `response.ok`, a status, a status
text and a parsed JSON body. -/
inductive NetworkBehavior where
  | fault (message : Option String)
  | response (ok : Bool) (status : Nat) (statusText : String) (body : ResponseBody)
deriving Repr

/-- `JSON.stringify` of an array whose elements serialize to the given strings. -/
def jsonStringifyArr (elems : List String) : String :=
  "[" ++ String.intercalate "," elems ++ "]"

/-- The distinct failure modes of `fetchIntrospection`: the non-2xx throw
(line 83), the GraphQL-errors throw (line 89), and a lower-level fault
caught at lines 99-104. -/
inductive FetchError where
  | transport (status : Nat) (statusText : String)
  | graphql (serializedErrors : String)
  | fetchFailure (message : Option String)
deriving Repr, DecidableEq

/-- The message of the error finally thrown by `fetchIntrospection`, after
the catch block at lines 99-104 rewraps whatever was thrown inside `try`. -/
def FetchError.message : FetchError → String
  | .transport status statusText =>
    "Failed to fetch GraphQL schema: HTTP " ++ toString status ++ ": " ++ statusText
  | .graphql serialized =>
    "Failed to fetch GraphQL schema: GraphQL errors: " ++ serialized
  | .fetchFailure (some m) => "Failed to fetch GraphQL schema: " ++ m
  | .fetchFailure none => "Failed to fetch GraphQL schema: Unknown error"

/-- The observable outcome of one `fetchIntrospection` call: the returned
document or thrown error, the cache afterwards, and whether the network was
accessed. -/
structure FetchOutcome where
  result : Except FetchError IntrospectionData
  cache : Cache
  networkAccessed : Bool
deriving Repr

/-- The network part of `fetchIntrospection` (lines 73-105): sends the
request, checks `response.ok`, checks `result.errors` (JS truthiness: an
empty array is truthy), and on success stores `result.data` in the cache. -/
def networkFetch (cache : Cache) (now : Nat) (net : NetworkBehavior)
    (cacheKey : String) : FetchOutcome :=
  match net with
  | .fault m => ⟨.error (.fetchFailure m), cache, true⟩
  | .response ok status statusText body =>
    if !ok then ⟨.error (.transport status statusText), cache, true⟩
    else
      match body.errors with
      | some errs => ⟨.error (.graphql (jsonStringifyArr errs)), cache, true⟩
      | none =>
        ⟨.ok body.data, cacheSet cache cacheKey ⟨body.data, now⟩, true⟩

/-- `fetchIntrospection` (lines 52-105): serve from the cache when an entry
exists and is valid, otherwise go to the network. -/
def fetchIntrospection (cache : Cache) (now : Nat) (net : NetworkBehavior)
    (endpoint : String) (auth : AuthOptions) : FetchOutcome :=
  match cacheGet cache (getCacheKey endpoint auth) with
  | some entry =>
    if isValidCache now entry then ⟨.ok entry.data, cache, false⟩
    else networkFetch cache now net (getCacheKey endpoint auth)
  | none => networkFetch cache now net (getCacheKey endpoint auth)

/-- The formatted type reference produced by `formatType` (lines 431-455).
`nonNull t` models `{kind: "NON_NULL", of_type: t, is_required: true}`,
`listWrap t` models `{kind: "LIST", of_type: t, is_list: true}`, and
`terminal kind name description` models the terminal
`{kind, name, description}` object. -/
inductive FormattedType where
  | nonNull (of_type : Option FormattedType)
  | listWrap (of_type : Option FormattedType)
  | terminal (kind : String) (name : Option String) (description : Option String)
deriving Repr

/-- `formatType` (lines 431-455): `null` maps to `null`, the two wrapper
kinds recurse into `ofType`, anything else is terminal. -/
def formatType : Option TypeRef → Option FormattedType
  | none => none
  | some (.mk kind name description ofType) =>
    if kind == "NON_NULL" then some (.nonNull (formatType ofType))
    else if kind == "LIST" then some (.listWrap (formatType ofType))
    else some (.terminal kind name description)

/-- A formatted argument or input field:
`{name, description, type, default_value}`. -/
structure FormattedArg where
  name : String
  description : Option String
  type : Option FormattedType
  default_value : Option String
deriving Repr

/-- A formatted type field: `{name, description, type, deprecated,
deprecation_reason}`. -/
structure FormattedTypeField where
  name : String
  description : Option String
  type : Option FormattedType
  deprecated : Bool
  deprecation_reason : Option String
deriving Repr

/-- A formatted enum value. -/
structure FormattedEnumValue where
  name : String
  description : Option String
  deprecated : Bool
  deprecation_reason : Option String
deriving Repr

/-- `formatArguments` (lines 420-429): an absent list maps to `[]`. -/
def formatArguments : Option (List InputFieldDef) → List FormattedArg
  | none => []
  | some args =>
    args.map (fun arg =>
      { name := arg.name, description := arg.description,
        type := formatType arg.type, default_value := arg.defaultValue })

/-- `formatTypeFields` (lines 457-465). -/
def formatTypeFields (fields : List FieldDef) : List FormattedTypeField :=
  fields.map (fun field =>
    { name := field.name, description := field.description,
      type := formatType field.type, deprecated := field.isDeprecated,
      deprecation_reason := field.deprecationReason })

/-- `formatEnumValues` (lines 467-474). -/
def formatEnumValues (values : List EnumValueDef) : List FormattedEnumValue :=
  values.map (fun value =>
    { name := value.name, description := value.description,
      deprecated := value.isDeprecated,
      deprecation_reason := value.deprecationReason })

/-- `formatInputFields` (lines 476-483). -/
def formatInputFields (fields : List InputFieldDef) : List FormattedArg :=
  fields.map (fun field =>
    { name := field.name, description := field.description,
      type := formatType field.type, default_value := field.defaultValue })

/-- Options of `filterTypes` (`interface TypeFilterOptions`). -/
structure TypeFilterOptions where
  search : Option String
  detailed : Bool
  kind : Option String
deriving Repr

/-- A formatted entry of `filterTypes`'s `types` list: the base
`{name, kind, description}` shape, or the detailed shape with the five
extra facets (each `none` models an explicit `null`). -/
inductive FormattedTypeItem where
  | base (name : String) (kind : String) (description : Option String)
  | detailed (name : String) (kind : String) (description : Option String)
      (fields : Option (List FormattedTypeField))
      (enum_values : Option (List FormattedEnumValue))
      (input_fields : Option (List FormattedArg))
      (interfaces : Option (List (Option String)))
      (possible_types : Option (List (Option String)))
deriving Repr

/-- The per-type projection of `filterTypes` (lines 286-305). -/
def formatTypeItem (detailed : Bool) (t : FullType) : FormattedTypeItem :=
  if detailed then
    .detailed t.name t.kind t.description
      (t.fields.map formatTypeFields)
      (t.enumValues.map formatEnumValues)
      (t.inputFields.map formatInputFields)
      (t.interfaces.map (fun l => l.map TypeRef.name))
      (t.possibleTypes.map (fun l => l.map TypeRef.name))
  else .base t.name t.kind t.description

/-- The search predicate of `filterTypes` (lines 280-283):
`type.name.toLowerCase().includes(searchLower) || (type.description &&
type.description.toLowerCase().includes(searchLower))`. -/
def typeSearchPred (searchLower : String) (t : FullType) : Bool :=
  strIncludes t.name.toLower searchLower ||
    (strTruthy t.description &&
      strIncludes ((t.description.getD "").toLower) searchLower)

/-- The filter pipeline of `filterTypes` (lines 268-284): drop
double-underscore names, then the `kind` filter when given, then the
`search` filter when given. -/
def filteredTypes (data : IntrospectionData) (opts : TypeFilterOptions) :
    List FullType :=
  let types1 := data.schema.types.filter (fun t => !(strStartsWith t.name "__"))
  let types2 :=
    if strTruthy opts.kind then
      types1.filter (fun t => t.kind == opts.kind.getD "")
    else types1
  if strTruthy opts.search then
    types2.filter (typeSearchPred ((opts.search.getD "").toLower))
  else types2

/-- The response of `filterTypes` (lines 307-314). -/
structure TypesResult where
  success : Bool
  endpoint : String
  search_term : Option String
  kind_filter : Option String
  types : List FormattedTypeItem
  total : Nat
deriving Repr

/-- The pure part of `filterTypes` (lines 264-315), applied to an already
fetched introspection document. -/
def filterTypesCore (endpoint : String) (data : IntrospectionData)
    (opts : TypeFilterOptions) : TypesResult :=
  let formatted := (filteredTypes data opts).map (formatTypeItem opts.detailed)
  { success := true, endpoint := endpoint, search_term := opts.search,
    kind_filter := opts.kind, types := formatted, total := formatted.length }

/-- Options of `filterQueries`/`filterMutations` (`interface FilterOptions`). -/
structure FilterOptions where
  search : Option String
  detailed : Bool
deriving Repr

/-- A formatted entry of the `queries`/`mutations` lists: the base shape
`{name, description, deprecated, deprecation_reason}` or the detailed one
with `arguments` and `return_type` added. -/
inductive FormattedFieldItem where
  | base (name : String) (description : Option String) (deprecated : Bool)
      (deprecation_reason : Option String)
  | detailed (name : String) (description : Option String) (deprecated : Bool)
      (deprecation_reason : Option String)
      (arguments : List FormattedArg) (return_type : Option FormattedType)
deriving Repr

/-- The per-field projection of `filterQueries`/`filterMutations`
(lines 170-187 and 236-253). -/
def formatFieldItem (detailed : Bool) (f : FieldDef) : FormattedFieldItem :=
  if detailed then
    .detailed f.name f.description f.isDeprecated f.deprecationReason
      (formatArguments f.args) (formatType f.type)
  else .base f.name f.description f.isDeprecated f.deprecationReason

/-- The search predicate of `filterQueries`/`filterMutations`
(lines 164-167 and 230-233). -/
def fieldSearchPred (searchLower : String) (f : FieldDef) : Bool :=
  strIncludes f.name.toLower searchLower ||
    (strTruthy f.description &&
      strIncludes ((f.description.getD "").toLower) searchLower)

/-- The response of `filterQueries` (lines 189-195); in the early returns of
lines 138-157 the `search_term` key is absent, modelled as `none`. -/
structure QueriesResult where
  success : Bool
  endpoint : String
  search_term : Option String
  queries : List FormattedFieldItem
  total : Nat
deriving Repr

/-- The pure part of `filterQueries` (lines 132-196). -/
def filterQueriesCore (endpoint : String) (data : IntrospectionData)
    (opts : FilterOptions) : QueriesResult :=
  match data.schema.queryType with
  | none =>
    { success := true, endpoint := endpoint, search_term := none,
      queries := [], total := 0 }
  | some qt =>
    match data.schema.types.find? (fun t => t.name == qt.name) with
    | none =>
      { success := true, endpoint := endpoint, search_term := none,
        queries := [], total := 0 }
    | some td =>
      match td.fields with
      | none =>
        { success := true, endpoint := endpoint, search_term := none,
          queries := [], total := 0 }
      | some fields =>
        let filtered :=
          if strTruthy opts.search then
            fields.filter (fieldSearchPred ((opts.search.getD "").toLower))
          else fields
        let formatted := filtered.map (formatFieldItem opts.detailed)
        { success := true, endpoint := endpoint, search_term := opts.search,
          queries := formatted, total := formatted.length }

/-- The response of `filterMutations` (lines 255-261). -/
structure MutationsResult where
  success : Bool
  endpoint : String
  search_term : Option String
  mutations : List FormattedFieldItem
  total : Nat
deriving Repr

/-- The pure part of `filterMutations` (lines 198-262); the code duplicates
`filterQueries` with the mutation root. -/
def filterMutationsCore (endpoint : String) (data : IntrospectionData)
    (opts : FilterOptions) : MutationsResult :=
  match data.schema.mutationType with
  | none =>
    { success := true, endpoint := endpoint, search_term := none,
      mutations := [], total := 0 }
  | some mt =>
    match data.schema.types.find? (fun t => t.name == mt.name) with
    | none =>
      { success := true, endpoint := endpoint, search_term := none,
        mutations := [], total := 0 }
    | some td =>
      match td.fields with
      | none =>
        { success := true, endpoint := endpoint, search_term := none,
          mutations := [], total := 0 }
      | some fields =>
        let filtered :=
          if strTruthy opts.search then
            fields.filter (fieldSearchPred ((opts.search.getD "").toLower))
          else fields
        let formatted := filtered.map (formatFieldItem opts.detailed)
        { success := true, endpoint := endpoint, search_term := opts.search,
          mutations := formatted, total := formatted.length }

/-- `'query' | 'mutation'` of `FieldDetailsOptions`. -/
inductive OperationType where
  | query
  | mutation
deriving Repr, DecidableEq

/-- The literal string value of an operation type. -/
def OperationType.str : OperationType → String
  | .query => "query"
  | .mutation => "mutation"

/-- `interface FieldDetailsOptions` (lines 27-30). -/
structure FieldDetailsOptions where
  field_name : String
  operation_type : Option OperationType
deriving Repr

/-- The `field` payload of `getFieldDetails` (lines 383-390). -/
structure FormattedFieldDetail where
  name : String
  description : Option String
  arguments : List FormattedArg
  return_type : Option FormattedType
  deprecated : Bool
  deprecation_reason : Option String
deriving Repr

/-- The success response of `getFieldDetails` (lines 379-392). -/
structure FieldDetailsResult where
  success : Bool
  endpoint : String
  operation_type : String
  field : FormattedFieldDetail
deriving Repr

/-- The pure part of `getFieldDetails` (lines 352-392); the three `throw`
sites become `Except.error` with the exact message strings. -/
def getFieldDetailsCore (endpoint : String) (data : IntrospectionData)
    (opts : FieldDetailsOptions) : Except String FieldDetailsResult :=
  let operationType := (opts.operation_type.getD .query).str
  let rootType :=
    if operationType == "mutation" then data.schema.mutationType
    else data.schema.queryType
  match rootType with
  | none => .error ("No " ++ operationType ++ " type available")
  | some rt =>
    match data.schema.types.find? (fun t => t.name == rt.name) with
    | none => .error (operationType ++ " type has no fields")
    | some td =>
      match td.fields with
      | none => .error (operationType ++ " type has no fields")
      | some fields =>
        match fields.find? (fun f => f.name == opts.field_name) with
        | none =>
          .error ("Field \"" ++ opts.field_name ++ "\" not found in "
            ++ operationType ++ " type")
        | some field =>
          .ok { success := true, endpoint := endpoint,
                operation_type := operationType,
                field := { name := field.name,
                           description := field.description,
                           arguments := formatArguments field.args,
                           return_type := formatType field.type,
                           deprecated := field.isDeprecated,
                           deprecation_reason := field.deprecationReason } }

/-! ### Helper lemmas about the cache and the fetch pipeline -/

/-- Reading back the key just written returns the written entry. -/
theorem cacheGet_cacheSet_self (c : Cache) (k : String) (e : CacheEntry) :
    cacheGet (cacheSet c k e) k = some e := by
  induction c with
  | nil => simp [cacheSet, cacheGet, List.find?]
  | cons p rest ih =>
    by_cases h : p.1 = k
    · simp [cacheSet, h, cacheGet, List.find?]
    · have hb : (p.1 == k) = false := by simpa using h
      simp only [cacheSet, hb, Bool.false_eq_true, if_false]
      simpa [cacheGet, List.find?, hb] using ih

/-- `networkFetch` always reports a network access. -/
theorem networkFetch_networkAccessed (cache : Cache) (now : Nat)
    (net : NetworkBehavior) (key : String) :
    (networkFetch cache now net key).networkAccessed = true := by
  cases net with
  | fault m => rfl
  | response ok status statusText body =>
    cases ok with
    | false => rfl
    | true =>
      cases herr : body.errors with
      | some errs => simp [networkFetch, herr]
      | none => simp [networkFetch, herr]

/-- When `networkFetch` succeeds, the document is the response body's `data`
and the cache gains exactly that document under the computed key. -/
theorem networkFetch_ok (cache : Cache) (now : Nat) (net : NetworkBehavior)
    (key : String) (d : IntrospectionData)
    (h : (networkFetch cache now net key).result = .ok d) :
    (networkFetch cache now net key).cache = cacheSet cache key ⟨d, now⟩ := by
  cases net with
  | fault m => simp [networkFetch] at h
  | response ok status statusText body =>
    cases ok with
    | false => simp [networkFetch] at h
    | true =>
      cases herr : body.errors with
      | some errs => simp [networkFetch, herr] at h
      | none =>
        simp only [networkFetch, herr, Bool.not_true, Bool.false_eq_true,
          if_false] at h ⊢
        cases h
        rfl

/-- When `networkFetch` fails, the cache is untouched. -/
theorem networkFetch_error (cache : Cache) (now : Nat) (net : NetworkBehavior)
    (key : String) (e : FetchError)
    (h : (networkFetch cache now net key).result = .error e) :
    (networkFetch cache now net key).cache = cache := by
  cases net with
  | fault m => rfl
  | response ok status statusText body =>
    cases ok with
    | false => rfl
    | true =>
      cases herr : body.errors with
      | some errs => simp [networkFetch, herr]
      | none =>
        simp only [networkFetch, herr, Bool.not_true, Bool.false_eq_true,
          if_false] at h
        exact (Except.noConfusion h)

/-- A fetch that reports a network access is exactly `networkFetch`. -/
theorem fetchIntrospection_eq_network (cache : Cache) (now : Nat)
    (net : NetworkBehavior) (endpoint : String) (auth : AuthOptions)
    (hnet : (fetchIntrospection cache now net endpoint auth).networkAccessed
      = true) :
    fetchIntrospection cache now net endpoint auth
      = networkFetch cache now net (getCacheKey endpoint auth) := by
  unfold fetchIntrospection at hnet ⊢
  cases hc : cacheGet cache (getCacheKey endpoint auth) with
  | none => rfl
  | some entry =>
    rw [hc] at hnet
    cases hv : isValidCache now entry with
    | true => simp [hv] at hnet
    | false => simp [hv]

/-- After a successful network fetch, a second call under the same cache key
within the cache window is answered from the cache: no network access, the
same document, and an unchanged cache. -/
theorem fetch_success_then_hit (cache : Cache) (now1 now2 : Nat)
    (net1 net2 : NetworkBehavior) (endpoint : String)
    (auth1 auth2 : AuthOptions) (d : IntrospectionData)
    (hkey : getCacheKey endpoint auth1 = getCacheKey endpoint auth2)
    (hnet : (fetchIntrospection cache now1 net1 endpoint auth1).networkAccessed
      = true)
    (hok : (fetchIntrospection cache now1 net1 endpoint auth1).result = .ok d)
    (hwin : now2 - now1 < CACHE_DURATION) :
    fetchIntrospection (fetchIntrospection cache now1 net1 endpoint auth1).cache
        now2 net2 endpoint auth2
      = ⟨.ok d, (fetchIntrospection cache now1 net1 endpoint auth1).cache,
          false⟩ := by
  have h1 := fetchIntrospection_eq_network cache now1 net1 endpoint auth1 hnet
  rw [h1] at hok ⊢
  have hcache := networkFetch_ok cache now1 net1 (getCacheKey endpoint auth1) d hok
  rw [hcache]
  have hget : cacheGet (cacheSet cache (getCacheKey endpoint auth1) ⟨d, now1⟩)
      (getCacheKey endpoint auth2) = some ⟨d, now1⟩ := by
    rw [← hkey]; exact cacheGet_cacheSet_self _ _ _
  unfold fetchIntrospection
  rw [hget]
  have hvalid : isValidCache now2 ⟨d, now1⟩ = true := by
    simpa [isValidCache] using hwin
  simp [hvalid]

/-! ### Concrete sample values used by witnesses -/

/-- The trivial auth descriptor (all fields absent). -/
def noAuth : AuthOptions := ⟨none, none, none⟩

/-- A minimal introspection document for concrete instantiations. -/
def sampleData : IntrospectionData := ⟨⟨none, none, none, []⟩⟩

/-! ### Claims about the fetcher, the cache and the configuration -/

/-- C1: for two calls with the same endpoint and the same derived
auth-identity, where the first performed a successful network fetch (creating
a cache entry) and the second happens while that entry's age is strictly
below the cache duration, the second call performs no network access and
returns a document equal to the first call's raw document. -/
theorem claim_c1_cache_hit (cache : Cache) (now1 now2 : Nat)
    (net1 net2 : NetworkBehavior) (endpoint : String)
    (auth1 auth2 : AuthOptions) (d : IntrospectionData)
    (hid : authIdentity auth1 = authIdentity auth2)
    (hnet : (fetchIntrospection cache now1 net1 endpoint auth1).networkAccessed
      = true)
    (hok : (fetchIntrospection cache now1 net1 endpoint auth1).result = .ok d)
    (hwin : now2 - now1 < CACHE_DURATION) :
    (fetchIntrospection (fetchIntrospection cache now1 net1 endpoint auth1).cache
        now2 net2 endpoint auth2).networkAccessed = false
    ∧ (fetchIntrospection (fetchIntrospection cache now1 net1 endpoint auth1).cache
        now2 net2 endpoint auth2).result = .ok d := by
  have hkey : getCacheKey endpoint auth1 = getCacheKey endpoint auth2 := by
    unfold getCacheKey; rw [hid]
  have h := fetch_success_then_hit cache now1 now2 net1 net2 endpoint auth1
    auth2 d hkey hnet hok hwin
  rw [h]
  exact ⟨rfl, rfl⟩

/-- Witness for C1 at a concrete schema, endpoint and pair of times. -/
theorem claim_c1_witness :
    (fetchIntrospection
        (fetchIntrospection [] 0 (.response true 200 "OK" ⟨none, sampleData⟩)
          "http://api" noAuth).cache
        1 (.fault none) "http://api" noAuth).networkAccessed = false
    ∧ (fetchIntrospection
        (fetchIntrospection [] 0 (.response true 200 "OK" ⟨none, sampleData⟩)
          "http://api" noAuth).cache
        1 (.fault none) "http://api" noAuth).result = .ok sampleData :=
  claim_c1_cache_hit [] 0 1 (.response true 200 "OK" ⟨none, sampleData⟩)
    (.fault none) "http://api" noAuth noAuth sampleData rfl rfl rfl (by decide)

/-- C2 counterexample: a 2xx response whose `errors` field is the empty
array still fails with a GraphQL error, because `if (result.errors)` tests
JS truthiness and an empty array is truthy. The claim asserts such a
response does not fail with `GraphQLError`. -/
theorem claim_c2_counterexample :
    (fetchIntrospection [] 0
        (.response true 200 "OK" ⟨some [], sampleData⟩) "http://api" noAuth).result
      = .error (.graphql (jsonStringifyArr [])) := rfl

/-- C2 (amended): for a 2xx response processed over the network, the fetch
fails with a GraphQL error iff the body's `errors` field is present (even as
an empty array), and when it fails on `errors = l` the final message is the
fixed prefix followed by the serialization of `l`. -/
theorem claim_c2_graphql_errors (cache : Cache) (now status : Nat)
    (statusText : String) (body : ResponseBody) (endpoint : String)
    (auth : AuthOptions)
    (hnet : (fetchIntrospection cache now (.response true status statusText body)
        endpoint auth).networkAccessed = true) :
    ((∃ s, (fetchIntrospection cache now (.response true status statusText body)
        endpoint auth).result = .error (.graphql s)) ↔ body.errors.isSome = true)
    ∧ (∀ l, body.errors = some l →
        (fetchIntrospection cache now (.response true status statusText body)
            endpoint auth).result = .error (.graphql (jsonStringifyArr l))
        ∧ (FetchError.graphql (jsonStringifyArr l)).message
          = "Failed to fetch GraphQL schema: GraphQL errors: "
            ++ jsonStringifyArr l) := by
  have h1 := fetchIntrospection_eq_network cache now
    (.response true status statusText body) endpoint auth hnet
  rw [h1]
  constructor
  · cases herr : body.errors with
    | none => simp [networkFetch, herr]
    | some l => simp [networkFetch, herr]
  · intro l hl
    exact ⟨by simp [networkFetch, hl], rfl⟩

/-- Witness for the amended C2 at a concrete one-element error list. -/
theorem claim_c2_witness :
    (fetchIntrospection [] 0
        (.response true 200 "OK" ⟨some ["e1"], sampleData⟩) "http://api"
        noAuth).result
      = .error (.graphql (jsonStringifyArr ["e1"])) :=
  ((claim_c2_graphql_errors [] 0 200 "OK" ⟨some ["e1"], sampleData⟩ "http://api"
    noAuth rfl).2 ["e1"] rfl).1

/-- An environment that sets the cache-duration override documented in the
repository's readme (`CACHE_DURATION_MS`) to ten minutes. -/
def envCacheOverride : String → Option String := fun name =>
  if name == "CACHE_DURATION_MS" then some "600000" else none

/-- C3: the code reads only the default-endpoint override from the
environment; the cache window is the hard-coded five minutes even when the
readme-documented `CACHE_DURATION_MS` override is set, contradicting the
claim (and the readme). -/
theorem claim_c3_no_cache_override :
    (mkService envCacheOverride).cacheDuration = 300000
    ∧ (mkService envCacheOverride).cacheDuration ≠ 600000
    ∧ CACHE_DURATION = 300000 := by
  refine ⟨rfl, ?_, rfl⟩
  decide

/-- C4: the cache key ignores the password: two auth descriptors with the
same non-empty username and different passwords produce the same cache key,
and a second call within the cache window returns the document cached by the
first call, without network access, despite the differing password. -/
theorem claim_c4_password_collision (endpoint : String)
    (auth1 auth2 : AuthOptions) (u : String)
    (hu1 : auth1.username = some u) (hu2 : auth2.username = some u)
    (hne : u ≠ "") (hpw : auth1.password ≠ auth2.password)
    (cache : Cache) (now1 now2 : Nat) (net1 net2 : NetworkBehavior)
    (d : IntrospectionData)
    (hnet : (fetchIntrospection cache now1 net1 endpoint auth1).networkAccessed
      = true)
    (hok : (fetchIntrospection cache now1 net1 endpoint auth1).result = .ok d)
    (hwin : now2 - now1 < CACHE_DURATION) :
    getCacheKey endpoint auth1 = getCacheKey endpoint auth2
    ∧ (fetchIntrospection (fetchIntrospection cache now1 net1 endpoint auth1).cache
        now2 net2 endpoint auth2).result = .ok d
    ∧ (fetchIntrospection (fetchIntrospection cache now1 net1 endpoint auth1).cache
        now2 net2 endpoint auth2).networkAccessed = false := by
  have hid : authIdentity auth1 = authIdentity auth2 := by
    have ht : strTruthy (some u) = true := by simp [strTruthy, hne]
    unfold authIdentity
    rw [hu1, hu2, ht]
    simp
  have hkey : getCacheKey endpoint auth1 = getCacheKey endpoint auth2 := by
    unfold getCacheKey; rw [hid]
  have h := fetch_success_then_hit cache now1 now2 net1 net2 endpoint auth1
    auth2 d hkey hnet hok hwin
  rw [h]
  exact ⟨hkey, rfl, rfl⟩

/-- Witness for C4: same username `alice`, passwords `pw1` and `pw2`. -/
theorem claim_c4_witness :
    getCacheKey "http://api" ⟨some "alice", some "pw1", none⟩
      = getCacheKey "http://api" ⟨some "alice", some "pw2", none⟩
    ∧ (fetchIntrospection
        (fetchIntrospection [] 0 (.response true 200 "OK" ⟨none, sampleData⟩)
          "http://api" ⟨some "alice", some "pw1", none⟩).cache
        1 (.fault none) "http://api" ⟨some "alice", some "pw2", none⟩).result
      = .ok sampleData
    ∧ (fetchIntrospection
        (fetchIntrospection [] 0 (.response true 200 "OK" ⟨none, sampleData⟩)
          "http://api" ⟨some "alice", some "pw1", none⟩).cache
        1 (.fault none) "http://api"
        ⟨some "alice", some "pw2", none⟩).networkAccessed = false :=
  claim_c4_password_collision "http://api" ⟨some "alice", some "pw1", none⟩
    ⟨some "alice", some "pw2", none⟩ "alice" rfl rfl (by decide) (by decide)
    [] 0 1 (.response true 200 "OK" ⟨none, sampleData⟩) (.fault none)
    sampleData rfl rfl (by decide)

/-- C10: whenever `fetchIntrospection` fails — transport fault, non-2xx
status, or a GraphQL errors payload — the cache afterwards equals the cache
before: no entry is created, overwritten or removed. -/
theorem claim_c10_failure_preserves_cache (cache : Cache) (now : Nat)
    (net : NetworkBehavior) (endpoint : String) (auth : AuthOptions)
    (e : FetchError)
    (h : (fetchIntrospection cache now net endpoint auth).result = .error e) :
    (fetchIntrospection cache now net endpoint auth).cache = cache := by
  unfold fetchIntrospection at h ⊢
  cases hc : cacheGet cache (getCacheKey endpoint auth) with
  | none =>
    rw [hc] at h
    exact networkFetch_error _ _ _ _ e h
  | some entry =>
    rw [hc] at h
    cases hv : isValidCache now entry with
    | true => simp [hv] at h
    | false =>
      simp only [hv, Bool.false_eq_true, if_false]
      simp only [hv, Bool.false_eq_true, if_false] at h
      exact networkFetch_error _ _ _ _ e h

/-- Witness for C10 at a concrete transport fault. -/
theorem claim_c10_witness :
    (fetchIntrospection [] 0 (.fault (some "connection refused")) "http://api"
        noAuth).cache = [] :=
  claim_c10_failure_preserves_cache [] 0 (.fault (some "connection refused"))
    "http://api" noAuth (.fetchFailure (some "connection refused")) rfl

/-! ### Claims about header construction and type formatting -/

/-- C5: `Content-Type` is always `application/json`; `Authorization` is
`Bearer <token>` whenever a bearer token is present (even alongside
username/password), else `Basic <base64(username:password)>` when both
username and password are present, else absent. -/
theorem claim_c5_auth_headers (auth : AuthOptions) :
    headerLookup (buildHeaders auth) "Content-Type" = some "application/json"
    ∧ (∀ t, auth.bearer_token = some t → t ≠ "" →
        headerLookup (buildHeaders auth) "Authorization"
          = some ("Bearer " ++ t))
    ∧ (∀ u p, strTruthy auth.bearer_token = false →
        auth.username = some u → u ≠ "" → auth.password = some p → p ≠ "" →
        headerLookup (buildHeaders auth) "Authorization"
          = some ("Basic " ++ base64Encode (u ++ ":" ++ p)))
    ∧ (strTruthy auth.bearer_token = false →
        (strTruthy auth.username && strTruthy auth.password) = false →
        headerLookup (buildHeaders auth) "Authorization" = none) := by
  refine ⟨?_, ?_, ?_, ?_⟩
  · unfold buildHeaders
    cases hb : strTruthy auth.bearer_token with
    | true => simp [headerLookup, List.find?]
    | false =>
      cases hup : strTruthy auth.username && strTruthy auth.password with
      | true => simp [headerLookup, List.find?]
      | false => simp [headerLookup, List.find?]
  · intro t ht hne
    have hb : strTruthy auth.bearer_token = true := by simp [ht, strTruthy, hne]
    unfold buildHeaders
    rw [hb, ht]
    simp only [Option.getD_some]
    simp [headerLookup, List.find?]
  · intro u p hb hu hune hp hpne
    unfold buildHeaders
    rw [hb]
    have hup : (strTruthy auth.username && strTruthy auth.password) = true := by
      simp [hu, hp, strTruthy, hune, hpne]
    rw [hu, hp] at hup ⊢
    simp only [hup, Bool.false_eq_true, if_false, if_true, Option.getD_some]
    simp [headerLookup, List.find?]
  · intro hb hup
    unfold buildHeaders
    rw [hb, hup]
    simp [headerLookup, List.find?]

/-- Witness for C5: bearer token present together with username/password;
the bearer token wins. -/
theorem claim_c5_witness :
    headerLookup (buildHeaders ⟨some "alice", some "pw", some "tok"⟩)
        "Authorization" = some ("Bearer " ++ "tok") :=
  (claim_c5_auth_headers ⟨some "alice", some "pw", some "tok"⟩).2.1 "tok" rfl
    (by decide)

/-- C6: `formatType` maps null to null, wraps `NON_NULL` and `LIST` kinds
around the recursively formatted inner type, returns the terminal
`{kind, name, description}` otherwise, and preserves arbitrary nesting, as
on the `NON_NULL (LIST (SCALAR Int))` example. -/
theorem claim_c6_format_type :
    formatType none = none
    ∧ (∀ name descr ofType,
        formatType (some (.mk "NON_NULL" name descr ofType))
          = some (.nonNull (formatType ofType)))
    ∧ (∀ name descr ofType,
        formatType (some (.mk "LIST" name descr ofType))
          = some (.listWrap (formatType ofType)))
    ∧ (∀ kind name descr ofType, kind ≠ "NON_NULL" → kind ≠ "LIST" →
        formatType (some (.mk kind name descr ofType))
          = some (.terminal kind name descr))
    ∧ formatType (some (.mk "NON_NULL" none none (some (.mk "LIST" none none
        (some (.mk "SCALAR" (some "Int") none none))))))
      = some (.nonNull (some (.listWrap (some
          (.terminal "SCALAR" (some "Int") none))))) := by
  refine ⟨by simp [formatType], fun name descr ofType => by simp [formatType],
    fun name descr ofType => by simp [formatType],
    fun kind name descr ofType h1 h2 => ?_, by simp [formatType]⟩
  have hb1 : (kind == "NON_NULL") = false := by simpa using h1
  have hb2 : (kind == "LIST") = false := by simpa using h2
  simp [formatType, hb1, hb2]

/-- Witness for C6's conditional clauses at a terminal scalar kind. -/
theorem claim_c6_witness :
    formatType (some (.mk "SCALAR" (some "Int") none none))
      = some (.terminal "SCALAR" (some "Int") none) :=
  claim_c6_format_type.2.2.2.1 "SCALAR" (some "Int") none none (by decide)
    (by decide)

/-! ### Claims about the filtering operations -/

/-- Membership through the optional `kind` filter of `filterTypes`:
present and non-empty (JS truthy) means an exact kind match is required. -/
theorem mem_kind_filter (l : List FullType) (kind : Option String)
    (t : FullType) :
    (t ∈ if strTruthy kind then l.filter (fun t => t.kind == kind.getD "")
        else l)
      ↔ t ∈ l ∧ (∀ k, kind = some k → k ≠ "" → t.kind = k) := by
  cases kind with
  | none => simp [strTruthy]
  | some k =>
    by_cases hk : k = ""
    · subst hk
      have ht : strTruthy (some "") = false := by simp [strTruthy]
      rw [ht]
      simp only [Bool.false_eq_true, if_false]
      constructor
      · intro hm
        refine ⟨hm, ?_⟩
        intro k' hk' hne
        cases hk'
        exact absurd rfl hne
      · exact fun h => h.1
    · have ht : strTruthy (some k) = true := by simp [strTruthy, hk]
      rw [ht]
      simp only [if_true, List.mem_filter, Option.getD_some, beq_iff_eq]
      constructor
      · rintro ⟨hm, hkind⟩
        refine ⟨hm, ?_⟩
        intro k' hk' _
        cases hk'
        exact hkind
      · rintro ⟨hm, hcond⟩
        exact ⟨hm, hcond k rfl hk⟩

/-- Membership through the optional `search` filter of `filterTypes`. -/
theorem mem_search_filter (l : List FullType) (search : Option String)
    (t : FullType) :
    (t ∈ if strTruthy search then
        l.filter (typeSearchPred ((search.getD "").toLower)) else l)
      ↔ t ∈ l ∧ (∀ s, search = some s → s ≠ "" →
          typeSearchPred s.toLower t = true) := by
  cases search with
  | none => simp [strTruthy]
  | some s =>
    by_cases hs : s = ""
    · subst hs
      have ht : strTruthy (some "") = false := by simp [strTruthy]
      rw [ht]
      simp only [Bool.false_eq_true, if_false]
      constructor
      · intro hm
        refine ⟨hm, ?_⟩
        intro s' hs' hne
        cases hs'
        exact absurd rfl hne
      · exact fun h => h.1
    · have ht : strTruthy (some s) = true := by simp [strTruthy, hs]
      rw [ht]
      simp only [if_true, List.mem_filter, Option.getD_some]
      constructor
      · rintro ⟨hm, hp⟩
        refine ⟨hm, ?_⟩
        intro s' hs' _
        cases hs'
        exact hp
      · rintro ⟨hm, hcond⟩
        exact ⟨hm, hcond s rfl hs⟩

/-- C7: the `types` list of `filter_types` is exactly the declared types
whose name does not begin with `__`, whose kind equals the given kind when
one is given, and which match the given search term when one is given —
the three predicates conjoined. -/
theorem claim_c7_filter_types (endpoint : String) (data : IntrospectionData)
    (opts : TypeFilterOptions) (t : FullType) :
    (filterTypesCore endpoint data opts).types
      = (filteredTypes data opts).map (formatTypeItem opts.detailed)
    ∧ (t ∈ filteredTypes data opts ↔
        t ∈ data.schema.types
        ∧ strStartsWith t.name "__" = false
        ∧ (∀ k, opts.kind = some k → k ≠ "" → t.kind = k)
        ∧ (∀ s, opts.search = some s → s ≠ "" →
            typeSearchPred s.toLower t = true)) := by
  refine ⟨rfl, ?_⟩
  simp only [filteredTypes]
  rw [mem_search_filter, mem_kind_filter, List.mem_filter]
  simp only [Bool.not_eq_true']
  tauto

/-- A sample scalar type declaration. -/
def sampleScalar : FullType :=
  ⟨"SCALAR", "Int", none, none, none, none, none, none⟩

/-- A sample document declaring just the scalar type. -/
def sampleTypesData : IntrospectionData := ⟨⟨none, none, none, [sampleScalar]⟩⟩

/-- Witness for C7: the scalar passes the `kind: SCALAR` filter. -/
theorem claim_c7_witness :
    sampleScalar ∈ filteredTypes sampleTypesData ⟨none, false, some "SCALAR"⟩ :=
  (claim_c7_filter_types "http://api" sampleTypesData ⟨none, false, some "SCALAR"⟩
    sampleScalar).2.mpr
    ⟨List.mem_cons_self _ _, by decide,
     fun _ hk _ => by cases hk; rfl,
     fun _ hs _ => by cases hs⟩

/-- C8: `filter_queries` and `filter_mutations` on a document lacking the
root operation type, whose root type is not among the declared types, or
whose root type has no field list, return `success: true`, `total: 0` and an
empty list — never an error. -/
theorem claim_c8_missing_root (endpoint : String) (data : IntrospectionData)
    (opts : FilterOptions) :
    ((data.schema.queryType = none
        ∨ ∃ qt, data.schema.queryType = some qt
            ∧ (data.schema.types.find? (fun t => t.name == qt.name) = none
              ∨ ∃ td, data.schema.types.find? (fun t => t.name == qt.name)
                    = some td ∧ td.fields = none)) →
      (filterQueriesCore endpoint data opts).success = true
      ∧ (filterQueriesCore endpoint data opts).total = 0
      ∧ (filterQueriesCore endpoint data opts).queries = [])
    ∧ ((data.schema.mutationType = none
        ∨ ∃ mt, data.schema.mutationType = some mt
            ∧ (data.schema.types.find? (fun t => t.name == mt.name) = none
              ∨ ∃ td, data.schema.types.find? (fun t => t.name == mt.name)
                    = some td ∧ td.fields = none)) →
      (filterMutationsCore endpoint data opts).success = true
      ∧ (filterMutationsCore endpoint data opts).total = 0
      ∧ (filterMutationsCore endpoint data opts).mutations = []) := by
  constructor
  · intro h
    rcases h with hq | ⟨qt, hq, hrest⟩
    · simp [filterQueriesCore, hq]
    · rcases hrest with hf | ⟨td, hf, hfl⟩
      · simp [filterQueriesCore, hq, hf]
      · simp [filterQueriesCore, hq, hf, hfl]
  · intro h
    rcases h with hm | ⟨mt, hm, hrest⟩
    · simp [filterMutationsCore, hm]
    · rcases hrest with hf | ⟨td, hf, hfl⟩
      · simp [filterMutationsCore, hm, hf]
      · simp [filterMutationsCore, hm, hf, hfl]

/-- Witness for C8 on the empty schema, which has neither root type. -/
theorem claim_c8_witness :
    (filterQueriesCore "http://api" sampleData ⟨none, false⟩).total = 0
    ∧ (filterMutationsCore "http://api" sampleData ⟨none, false⟩).total = 0 :=
  ⟨((claim_c8_missing_root "http://api" sampleData ⟨none, false⟩).1
      (Or.inl rfl)).2.1,
   ((claim_c8_missing_root "http://api" sampleData ⟨none, false⟩).2
      (Or.inl rfl)).2.1⟩

/-! ### C9: the three not-found messages of `get_field_details` -/

/-- Strings whose character lists have different heads differ. -/
theorem ne_of_data_head_ne (a b : String)
    (h : a.data.head? ≠ b.data.head?) : a ≠ b :=
  fun he => h (by rw [he])

/-- The character list of an append whose left part starts with `c`. -/
theorem data_append_cons (s t : String) (c : Char) (l : List Char)
    (h : s.data = c :: l) : (s ++ t).data = c :: (l ++ t.data) := by
  rw [String.data_append, h]
  rfl

/-- Every field-not-found message starts with the character `F`. -/
theorem field_msg_head (f op : String) :
    ("Field \"" ++ f ++ "\" not found in " ++ op ++ " type").data.head?
      = some 'F' := by
  have h0 : ("Field \"" : String).data = 'F' :: "ield \"".data := rfl
  have h1 := data_append_cons "Field \"" f 'F' _ h0
  have h2 := data_append_cons ("Field \"" ++ f) "\" not found in " 'F' _ h1
  have h3 := data_append_cons ("Field \"" ++ f ++ "\" not found in ") op 'F' _ h2
  have h4 := data_append_cons ("Field \"" ++ f ++ "\" not found in " ++ op)
    " type" 'F' _ h3
  rw [h4]
  rfl

/-- The root-type selector of `getFieldDetailsCore` written with the string
comparison of the source equals the selector written on `OperationType`. -/
theorem rootType_selector (op : OperationType) (data : IntrospectionData) :
    (if op.str == "mutation" then data.schema.mutationType
      else data.schema.queryType)
      = (if op = .mutation then data.schema.mutationType
          else data.schema.queryType) := by
  cases op <;> rfl

/-- C9: `get_field_details` reports failure with one of three messages —
one when the chosen operation root is absent, another when the root type is
missing or has no field list, a third when no field matches — and for every
operation type and field name the three messages are pairwise distinct. -/
theorem claim_c9_not_found_messages (endpoint : String)
    (data : IntrospectionData) (opts : FieldDetailsOptions) :
    ((if (opts.operation_type.getD .query) = .mutation then
        data.schema.mutationType else data.schema.queryType) = none →
      getFieldDetailsCore endpoint data opts
        = .error ("No " ++ (opts.operation_type.getD .query).str
            ++ " type available"))
    ∧ (∀ rt, (if (opts.operation_type.getD .query) = .mutation then
          data.schema.mutationType else data.schema.queryType) = some rt →
        (data.schema.types.find? (fun t => t.name == rt.name) = none
          ∨ ∃ td, data.schema.types.find? (fun t => t.name == rt.name)
              = some td ∧ td.fields = none) →
        getFieldDetailsCore endpoint data opts
          = .error ((opts.operation_type.getD .query).str
              ++ " type has no fields"))
    ∧ (∀ rt td fields, (if (opts.operation_type.getD .query) = .mutation then
          data.schema.mutationType else data.schema.queryType) = some rt →
        data.schema.types.find? (fun t => t.name == rt.name) = some td →
        td.fields = some fields →
        fields.find? (fun f => f.name == opts.field_name) = none →
        getFieldDetailsCore endpoint data opts
          = .error ("Field \"" ++ opts.field_name ++ "\" not found in "
              ++ (opts.operation_type.getD .query).str ++ " type"))
    ∧ (∀ (op : OperationType) (f : String),
        ("No " ++ op.str ++ " type available")
            ≠ (op.str ++ " type has no fields")
        ∧ ("No " ++ op.str ++ " type available")
            ≠ ("Field \"" ++ f ++ "\" not found in " ++ op.str ++ " type")
        ∧ (op.str ++ " type has no fields")
            ≠ ("Field \"" ++ f ++ "\" not found in " ++ op.str ++ " type")) := by
  refine ⟨?_, ?_, ?_, ?_⟩
  · intro hroot
    simp only [getFieldDetailsCore]
    rw [rootType_selector, hroot]
  · intro rt hroot hrest
    simp only [getFieldDetailsCore]
    rw [rootType_selector, hroot]
    rcases hrest with hf | ⟨td, hf, hfl⟩
    · simp [hf]
    · simp [hf, hfl]
  · intro rt td fields hroot hf hfl hfind
    simp only [getFieldDetailsCore]
    rw [rootType_selector, hroot]
    simp [hf, hfl, hfind]
  · intro op f
    refine ⟨?_, ?_, ?_⟩
    · cases op <;> decide
    · apply ne_of_data_head_ne
      rw [field_msg_head]
      cases op <;> decide
    · apply ne_of_data_head_ne
      rw [field_msg_head]
      cases op <;> decide

/-- Witness for C9: a mutation lookup on a schema with no mutation root
fails with the root-absent message, which differs from the field-not-found
message. -/
theorem claim_c9_witness :
    getFieldDetailsCore "http://api" sampleData ⟨"createUser", some .mutation⟩
      = .error ("No " ++ "mutation" ++ " type available")
    ∧ ("No " ++ "mutation" ++ " type available")
      ≠ ("Field \"" ++ "createUser" ++ "\" not found in " ++ "mutation"
          ++ " type") :=
  ⟨(claim_c9_not_found_messages "http://api" sampleData
      ⟨"createUser", some .mutation⟩).1 rfl,
   ((claim_c9_not_found_messages "http://api" sampleData
      ⟨"createUser", some .mutation⟩).2.2.2 .mutation "createUser").2.1⟩

end GraphQLInspector
